import Mathlib

/-!
Verification of the Smite panel control plane (panel/main.py,
panel/app/node_client.py, panel/app/routers/core_health.py) against its
natural-language specification.  Python dictionaries are modelled as
association lists of `SVal` values (with Python truthiness made explicit),
HTTP and process side effects as oracles passed in as function arguments,
and the persistent store as an explicit record threaded through the
embedded operations.
-/

namespace Smite

/-- Value stored in a Python dict / JSON object: string, integer, boolean
or `None` (`null`).  Missing keys and present-but-`None` values are kept
distinct, matching `dict.get(k, default)` semantics. -/
inductive SVal where
  | s (v : String)
  | n (v : Nat)
  | b (v : Bool)
  | null
  deriving Repr, DecidableEq

/-- Python truthiness of a value: `None`, `0`, `""` and `False` are falsy. -/
def SVal.truthy : SVal → Bool
  | .s v => !(v == "")
  | .n v => !(v == 0)
  | .b v => v
  | .null => false

/-- Python `str()` rendering used by f-strings. -/
def SVal.pyStr : SVal → String
  | .s v => v
  | .n v => toString v
  | .b v => if v then "True" else "False"
  | .null => "None"

/-- Python `int()` on values that occur in port fields (numeric strings and
ints; other inputs are irrelevant to the verified paths). -/
def SVal.toNatD : SVal → Nat
  | .n v => v
  | .s v => (v.toNat?).getD 0
  | .b v => if v then 1 else 0
  | .null => 0

/-- Backend-dependent `spec` mapping of a tunnel: an association list. -/
abbrev Spec := List (String × SVal)

/-- Python `d.get(k)`: `none` when the key is absent. -/
def Spec.get? (sp : Spec) (k : String) : Option SVal :=
  (List.find? (fun e => e.1 == k) sp).map (fun e => e.2)

/-- Python `d.get(k, default)`. -/
def Spec.getD (sp : Spec) (k : String) (d : SVal) : SVal :=
  (sp.get? k).getD d

/-- Python `d[k] = v` on a fresh copy of the dict (item assignment after
`dict.copy()`); only lookup order matters for the verified properties. -/
def Spec.set (sp : Spec) (k : String) (v : SVal) : Spec :=
  (k, v) :: List.filter (fun e => !(e.1 == k)) sp

/-- Truthiness of `d.get(k)` (Python `if d.get(k):`). -/
def Spec.truthy (sp : Spec) (k : String) : Bool :=
  match sp.get? k with
  | none => false
  | some v => v.truthy

/-- Python `a or b` on optional dict values: keeps `a` when truthy. -/
def pyOr (a b : Option SVal) : Option SVal :=
  match a with
  | some v => if v.truthy then some v else b
  | none => b

/-- Truthy payload of an optional value, with Python `or`-chain semantics:
`none` for a missing or falsy value. -/
def truthyVal (a : Option SVal) : Option SVal :=
  match a with
  | some v => if v.truthy then some v else none
  | none => none

/-- Python `s.rstrip("/")`: drop every trailing slash. -/
def rstripSlash (s : String) : String :=
  ⟨(List.dropWhile (fun c => c == '/') s.data.reverse).reverse⟩

/-- Characters up to (excluding) the first occurrence of `c`: Python
`a.split(c)[0]`, which is also `a` itself when `c` does not occur. -/
def takeUntilChar (c : Char) : List Char → List Char
  | [] => []
  | x :: xs => if x == c then [] else x :: takeUntilChar c xs

/-- Characters after the first occurrence of `"://"`, `none` when the
marker does not occur. -/
def afterSchemeMarker : List Char → Option (List Char)
  | c1 :: c2 :: c3 :: rest =>
    if c1 == ':' && c2 == '/' && c3 == '/' then some rest
    else afterSchemeMarker (c2 :: c3 :: rest)
  | _ => none

/-- Everything after the first `"://"` (Python `a.split("://", 1)[1]`
guarded by `if "://" in a`). -/
def stripScheme (a : String) : String :=
  match afterSchemeMarker a.data with
  | some rest => ⟨rest⟩
  | none => a

/-- Python `a.split(":")[0] if ":" in a else a`. -/
def hostBeforeColon (a : String) : String :=
  ⟨takeUntilChar ':' a.data⟩

/-- Host extraction applied to a `panel_address` metadata value: strip the
URL scheme, then keep everything before the first colon. -/
def hostOfAddress (a : String) : String :=
  hostBeforeColon (stripScheme a)

/-! ## Data model (app/models.py rows, as used by the verified code) -/

/-- Metadata mapping of a `Node` row (`node.node_metadata`). -/
structure NodeMetadata where
  frp_remote_port : Option SVal := none
  api_address : Option SVal := none
  panel_address : Option SVal := none
  ip_address : Option SVal := none
  api_port : Option SVal := none
  deriving Repr, DecidableEq

/-- Node row: only the fields read by the verified code. -/
structure Node where
  id : String
  fingerprint : String
  node_metadata : Option NodeMetadata := none
  deriving Repr, DecidableEq

/-- Tunnel row: only the fields read by the verified code. -/
structure Tunnel where
  id : String
  core : String
  type : String
  status : String
  node_id : Option String := none
  spec : Spec := []
  deriving Repr, DecidableEq

/-- CoreResetConfig row.  Timestamps are abstracted to natural numbers in
minutes; `timedelta(minutes=m)` becomes `+ m`. -/
structure CoreResetConfig where
  core : String
  enabled : Bool
  interval_minutes : Nat
  last_reset : Option Nat := none
  next_reset : Option Nat := none
  deriving Repr, DecidableEq

/-- Settings row `key = "frp"` (panel↔node relay transport settings). -/
structure FrpSettings where
  enabled : Bool
  deriving Repr, DecidableEq

/-- Persistent store as seen by the verified code paths. -/
structure Store where
  nodes : List Node
  tunnels : List Tunnel
  frp : Option FrpSettings := none
  deriving Repr, DecidableEq

/-- Environment and config inputs read by the derivations
(`os.getenv("PANEL_PUBLIC_IP")`, `os.getenv("PANEL_IP")`,
`settings.panel_domain`). -/
structure Env where
  panel_public_ip : Option String := none
  panel_ip : Option String := none
  panel_domain : Option String := none
  deriving Repr, DecidableEq

/-! ## NodeClient (app/node_client.py) -/

/-- The `_get_frp_settings` query: returns the `"frp"` settings row only
when it exists and its `enabled` flag is truthy (node_client.py:22-29). -/
def get_frp_settings (st : Store) : Option FrpSettings :=
  match st.frp with
  | some s => if s.enabled then some s else none
  | none => none

/-- The `frp_remote_port` metadata lookup inside `_get_node_address`
(node_client.py:39): `node.node_metadata.get("frp_remote_port") if
node.node_metadata else None`. -/
def Node.frpRemotePort (node : Node) : Option SVal :=
  match node.node_metadata with
  | some m => m.frp_remote_port
  | none => none

/-- The `api_address` fallback of `_get_node_address` (node_client.py:50-52):
metadata value or `"http://localhost:8888"`, prefixing `"http://"` when the
stored address does not start with `"http"`. -/
def Node.directAddress (node : Node) : String :=
  let addr :=
    match node.node_metadata with
    | some m => (m.api_address.getD (.s "http://localhost:8888")).pyStr
    | none => "http://localhost:8888"
  if addr.startsWith "http" then addr else "http://" ++ addr

/-- NodeClient._get_node_address (node_client.py:31-54).  Returns the base
address and the `using_frp` flag: the loopback relay address when the FRP
settings are enabled and the node has reported a truthy `frp_remote_port`,
the direct address otherwise. -/
def get_node_address (st : Store) (node : Node) : String × Bool :=
  match get_frp_settings st with
  | some s =>
    if s.enabled then
      match truthyVal node.frpRemotePort with
      | some p => ("http://127.0.0.1:" ++ p.pyStr, true)
      | none => (node.directAddress, false)
    else (node.directAddress, false)
  | none => (node.directAddress, false)

/-- Outcome of one HTTP POST attempt inside `send_to_node`, as an oracle
value: a decoded JSON payload, an `httpx.RequestError` (network error), or
an `httpx.HTTPStatusError` carrying the status code, the optional decoded
`detail` field of the response body and the `str(e)` fallback text. -/
inductive AttemptResult where
  | ok (payload : String)
  | netErr (msg : String)
  | statusErr (code : Nat) (detail : Option String) (fallback : String)
  deriving Repr, DecidableEq

/-- Structured result dictionary returned by NodeClient methods: either the
decoded response JSON or an `{"status": "error", "message": ...}` dict. -/
inductive SendResult where
  | ok (payload : String)
  | error (message : String)
  deriving Repr, DecidableEq

/-- Suffix appended to the exhaustion message when the relay transport is
in use (node_client.py:101-102). -/
def frpNote (using_frp : Bool) (max_retries : Nat) : String :=
  if using_frp then
    " (FRP tunnel may not be ready, tried " ++ toString max_retries ++ " times)"
  else ""

/-- Decoded message of an HTTP status error (node_client.py:107-112):
`e.response.json().get("detail", str(e))` with `str(e)` as fallback. -/
def statusErrMsg (code : Nat) (detail : Option String) (fallback : String) : String :=
  "Node error (HTTP " ++ toString code ++ "): " ++ detail.getD fallback

/-- The retry loop of `send_to_node` (node_client.py:83-106):
`for attempt in range(max_retries)` issuing POSTs, retrying after a
1-second sleep only on `httpx.RequestError` and only while attempts
remain; an `httpx.HTTPStatusError` escapes the loop to the outer handler
and is returned at once.  Arguments: the per-attempt oracle, the
`using_frp` flag, `max_retries`, the index of the current attempt, the
number of remaining iterations, and `last_error`.  Returns the result
together with the number of POST attempts issued and the number of
1-second sleeps performed. -/
def runAttempts (oracle : Nat → AttemptResult) (using_frp : Bool) (max_retries : Nat) :
    Nat → Nat → Option String → SendResult × Nat × Nat
  | _, 0, lastError =>
    (.error ("Network error: " ++ lastError.getD "None"), 0, 0)
  | i, r + 1, _ =>
    match oracle i with
    | .ok payload => (.ok payload, 1, 0)
    | .statusErr code detail fallback => (.error (statusErrMsg code detail fallback), 1, 0)
    | .netErr msg =>
      if r == 0 then
        (.error ("Network error: " ++ msg ++ frpNote using_frp max_retries), 1, 0)
      else
        let rec_ := runAttempts oracle using_frp max_retries (i + 1) r (some msg)
        (rec_.1, rec_.2.1 + 1, rec_.2.2 + 1)

/-- Observable outcome of a NodeClient call: the structured result, the URL
targeted (`none` when the node lookup failed before a URL was formed), the
number of POST attempts and the number of 1-second retry sleeps. -/
structure SendOutcome where
  result : SendResult
  url : Option String
  attempts : Nat
  sleeps : Nat
  deriving Repr, DecidableEq

/-- NodeClient.send_to_node (node_client.py:56-114).  The best-effort FRP
liveness probe (lines 73-80) catches every exception and affects no
control flow, so it is not part of the observable outcome.  `max_retries`
is 3 over the relay and 1 direct. -/
def send_to_node (st : Store) (node_id : String) (endpoint : String)
    (oracle : Nat → AttemptResult) : SendOutcome :=
  match List.find? (fun n => n.id == node_id) st.nodes with
  | none =>
    { result := .error ("Node " ++ node_id ++ " not found"),
      url := none, attempts := 0, sleeps := 0 }
  | some node =>
    let (node_address, using_frp) := get_node_address st node
    let url := rstripSlash node_address ++ endpoint
    let max_retries := if using_frp then 3 else 1
    let r := runAttempts oracle using_frp max_retries 0 max_retries none
    { result := r.1, url := some url, attempts := r.2.1, sleeps := r.2.2 }

/-- NodeClient.get_tunnel_status (node_client.py:116-145): a single GET to
the fixed status endpoint, no retry; network errors and HTTP status errors
are returned as structured error dicts. -/
def get_tunnel_status (st : Store) (node_id : String)
    (oracle : AttemptResult) : SendOutcome :=
  match List.find? (fun n => n.id == node_id) st.nodes with
  | none =>
    { result := .error ("Node " ++ node_id ++ " not found"),
      url := none, attempts := 0, sleeps := 0 }
  | some node =>
    let (node_address, _) := get_node_address st node
    let url := rstripSlash node_address ++ "/api/agent/status"
    match oracle with
    | .ok payload => { result := .ok payload, url := some url, attempts := 1, sleeps := 0 }
    | .netErr msg =>
      { result := .error ("Network error: " ++ msg), url := some url, attempts := 1, sleeps := 0 }
    | .statusErr code detail fallback =>
      { result := .error (statusErrMsg code detail fallback), url := some url, attempts := 1, sleeps := 0 }

/-! ## Shared helpers for derivations -/

/-- Truthiness of an optional dict value (Python `if x:` after `x = d.get(k)`
or an `or`-chain). -/
def truthyO (a : Option SVal) : Bool :=
  (truthyVal a).isSome

/-- Python f-string rendering of an optional value (`None` renders as
`"None"`). -/
def pyStrO : Option SVal → String
  | none => "None"
  | some v => v.pyStr

/-- Python `os.getenv("PANEL_PUBLIC_IP") or os.getenv("PANEL_IP")`. -/
def envPublicIp (env : Env) : Option String :=
  match env.panel_public_ip with
  | some v => if v == "" then env.panel_ip else some v
  | none => env.panel_ip

/-- The guarded env fallback used by the derivations:
`if panel_public_ip and panel_public_ip not in ["localhost", "127.0.0.1",
"::1", "0.0.0.0", ""]` (core_health.py:385-387, 440-441; main.py:334-335). -/
def validPublicIp (env : Env) : Option String :=
  match envPublicIp env with
  | some ip =>
    if ip == "" || ip == "localhost" || ip == "127.0.0.1" || ip == "::1" || ip == "0.0.0.0"
    then none else some ip
  | none => none

/-- Bracketed URL of the chisel control endpoint
(core_health.py:391-395; main.py:375-379); the `is_valid_ipv6_address`
predicate (app/utils.py, outside the verified sources) is passed in as a
parameter so every result holds for any implementation of it. -/
def chiselServerUrl (is_valid_ipv6_address : String → Bool) (host : String) (cp : Nat) : String :=
  if is_valid_ipv6_address host then "http://[" ++ host ++ "]:" ++ toString cp
  else "http://" ++ host ++ ":" ++ toString cp

/-- Chisel control port: explicit truthy `control_port`, else
`listen_port + 10000` (core_health.py:365-369; main.py:344-348,
main.py:220-224). -/
def chiselControlPort (sp : Spec) (listen_port : SVal) : Nat :=
  match truthyVal (sp.get? "control_port") with
  | some cp => cp.toNatD
  | none => listen_port.toNatD + 10000

/-! ## App state and core health (app/routers/core_health.py) -/

/-- Managed backend process managers on `app.state`; each carries the ids
`get_active_servers()` currently reports, `none` models a missing
attribute (`getattr(app.state, ..., None)` returning None). -/
structure AppState where
  backhaul_manager : Option (List String) := none
  rathole_server_manager : Option (List String) := none
  chisel_server_manager : Option (List String) := none
  frp_server_manager : Option (List String) := none
  deriving Repr, DecidableEq

/-- CORES (core_health.py:18). -/
def CORES : List String := ["backhaul", "rathole", "chisel", "frp"]

/-- The active-tunnel query `select(Tunnel).where(Tunnel.core == core,
Tunnel.status == "active")` (core_health.py:51, core_health.py:260). -/
def activeTunnelsOf (st : Store) (core : String) : List Tunnel :=
  st.tunnels.filter (fun t => t.core == core && t.status == "active")

/-- Panel-side health of one core given its manager: the branch body
repeated verbatim for each of the four cores in get_core_health
(core_health.py:55-106). -/
def panelHealthBranch (manager : Option (List String)) (active_tunnels : List Tunnel) :
    String × Bool :=
  match manager with
  | some active_servers =>
    if active_tunnels.length > 0 then
      if active_servers.length > 0 then ("healthy", true) else ("error", false)
    else ("healthy", true)
  | none =>
    (if active_tunnels.length > 0 then "error" else "healthy",
     active_tunnels.length == 0)

/-- Panel-side part of get_core_health for one core (core_health.py:41-110):
dispatch on the core name to the matching manager; the initial
("unknown", False) survives only for a core outside CORES. -/
def get_core_health_panel (app : AppState) (st : Store) (core : String) : String × Bool :=
  let active_tunnels := activeTunnelsOf st core
  if core == "backhaul" then panelHealthBranch app.backhaul_manager active_tunnels
  else if core == "rathole" then panelHealthBranch app.rathole_server_manager active_tunnels
  else if core == "chisel" then panelHealthBranch app.chisel_server_manager active_tunnels
  else if core == "frp" then panelHealthBranch app.frp_server_manager active_tunnels
  else ("unknown", false)

/-- Server ids the matching manager reports, empty when the manager
attribute is missing. -/
def managerServersFor (app : AppState) (core : String) : List String :=
  if core == "backhaul" then app.backhaul_manager.getD []
  else if core == "rathole" then app.rathole_server_manager.getD []
  else if core == "chisel" then app.chisel_server_manager.getD []
  else if core == "frp" then app.frp_server_manager.getD []
  else []

/-! ## Reset configuration (core_health.py:183-226, main.py:416-452) -/

/-- Body of a PUT /reset-config/{core} request (core_health.py:36-38). -/
structure ResetConfigUpdate where
  enabled : Option Bool := none
  interval_minutes : Option Nat := none
  deriving Repr, DecidableEq

/-- The next_reset recomputation ending update_reset_config
(core_health.py:208-214): when enabled with a truthy interval, next_reset
is last_reset + interval (utcnow + interval when last_reset is unset),
otherwise next_reset is cleared. -/
def recomputeNext (now : Nat) (config : CoreResetConfig) : CoreResetConfig :=
  if config.enabled && !(config.interval_minutes == 0) then
    match config.last_reset with
    | some t => { config with next_reset := some (t + config.interval_minutes) }
    | none => { config with next_reset := some (now + config.interval_minutes) }
  else { config with next_reset := none }

/-- update_reset_config (core_health.py:183-226) acting on the stored row
(`none` = row lazily created with defaults {disabled, 10 minutes});
errors model the two HTTPException(400) paths. -/
def update_reset_config (now : Nat) (core : String) (cfg0 : Option CoreResetConfig)
    (upd : ResetConfigUpdate) : Except String CoreResetConfig :=
  if !(CORES.contains core) then .error ("Invalid core: " ++ core)
  else
    let config := cfg0.getD { core := core, enabled := false, interval_minutes := 10 }
    let config :=
      match upd.enabled with
      | some e => { config with enabled := e }
      | none => config
    match upd.interval_minutes with
    | some i =>
      if i < 1 then .error "Interval must be at least 1 minute"
      else .ok (recomputeNext now { config with interval_minutes := i })
    | none => .ok (recomputeNext now config)

/-- Bookkeeping written by a successful scheduler firing
(main.py:440-441): last_reset := now, next_reset := now + interval. -/
def scheduler_bookkeeping (now : Nat) (c : CoreResetConfig) : CoreResetConfig :=
  { c with last_reset := some now, next_reset := some (now + c.interval_minutes) }

/-- One scheduler iteration over one row loaded by the
`enabled == True` query (main.py:431-447): skip unless next_reset is set
and has passed; on a reset failure the transaction is rolled back, leaving
the row unchanged. -/
def scheduler_fire (now : Nat) (resetOk : Bool) (config : CoreResetConfig) : CoreResetConfig :=
  match config.next_reset with
  | none => config
  | some nr =>
    if nr ≤ now then
      if resetOk then scheduler_bookkeeping now config else config
    else config

/-- Bookkeeping of manual_reset_core after _reset_core returns
(core_health.py:238-245): when the row exists, last_reset := utcnow and,
if enabled with a truthy interval, next_reset := last_reset + interval. -/
def manual_reset_bookkeeping (now : Nat) (cfg : Option CoreResetConfig) :
    Option CoreResetConfig :=
  match cfg with
  | none => none
  | some c =>
    let c1 := { c with last_reset := some now }
    if c1.enabled && !(c1.interval_minutes == 0) then
      some { c1 with next_reset := some (now + c1.interval_minutes) }
    else some c1

/-- The ResetConfig invariant stated by the spec: next_reset is null iff
the config is disabled, and an enabled row with a recorded last_reset has
next_reset = last_reset + interval. -/
def ResetInvariant (c : CoreResetConfig) : Prop :=
  (c.next_reset = none ↔ c.enabled = false)
  ∧ (∀ t, c.last_reset = some t → c.enabled = true →
      c.next_reset = some (t + c.interval_minutes))

/-! ## The reset operation (_reset_core, core_health.py:253-457) -/

/-- Observable effect of _reset_core: local process-manager calls, the
0.5-second pauses, and a node delivery carrying the spec actually sent. -/
inductive ResetEffect where
  | stop (core tunnel_id : String)
  | sleep
  | start (core tunnel_id : String)
  | deliver (node_id tunnel_id : String) (spec : Spec)
  deriving Repr, DecidableEq

/-- Outcomes of local process-manager calls, supplied as an oracle keyed
by tunnel id (`.error` = the call raised). -/
structure ProcOracle where
  stopRes : String → Except String Unit
  startRes : String → Except String Unit

/-- Local restart of one tunnel inside its try block
(e.g. core_health.py:267-272): stop, 0.5s pause, start; every exception is
caught per tunnel, so a stop failure only skips that tunnel's pause and
start, and a start failure changes nothing further. -/
def localRestartEffects (po : ProcOracle) (core : String) (t : Tunnel) : List ResetEffect :=
  match po.stopRes t.id with
  | .error _ => [.stop core t.id]
  | .ok _ => [.stop core t.id, .sleep, .start core t.id]

/-- Field guard in front of the local restart, per core
(core_health.py:266-329): backhaul restarts unconditionally; rathole needs
truthy remote_addr, token and remote_port-or-listen_port; chisel needs
truthy server_port-or-listen_port; frp needs a truthy bind_port
(default 7000). -/
def localEligible (core : String) (t : Tunnel) : Bool :=
  if core == "backhaul" then true
  else if core == "rathole" then
    t.spec.truthy "remote_addr" && t.spec.truthy "token"
      && truthyO (pyOr (t.spec.get? "remote_port") (t.spec.get? "listen_port"))
  else if core == "chisel" then
    truthyO (pyOr (t.spec.get? "server_port") (t.spec.get? "listen_port"))
  else if core == "frp" then
    (t.spec.getD "bind_port" (.n 7000)).truthy
  else false

/-- Manager presence test of the local phase (`manager = getattr(app.state,
...); if manager:`, core_health.py:263-316): nothing happens when the
manager attribute is missing. -/
def managerPresentFor (app : AppState) (core : String) : Bool :=
  if core == "backhaul" then app.backhaul_manager.isSome
  else if core == "rathole" then app.rathole_server_manager.isSome
  else if core == "chisel" then app.chisel_server_manager.isSome
  else if core == "frp" then app.frp_server_manager.isSome
  else false

/-- Local phase of _reset_core (core_health.py:263-329), continued:
each eligible active tunnel is restarted inside its own try block. -/
def resetLocalEffects (app : AppState) (po : ProcOracle) (core : String)
    (active_tunnels : List Tunnel) : List ResetEffect :=
  if managerPresentFor app core then
    (active_tunnels.filter (localEligible core)).flatMap (localRestartEffects po core)
  else []

/-- Rathole node-facing spec built by _reset_core (core_health.py:348-360):
a fresh dict of host:port, token, local_addr and local_port. -/
def ratholeResetSpec (sp : Spec) : Spec :=
  let remote_addr := hostBeforeColon ((sp.getD "remote_addr" (.s "")).pyStr)
  let remote_port := pyOr (sp.get? "remote_port") (sp.get? "listen_port")
  [("remote_addr", .s (remote_addr ++ ":" ++ pyStrO remote_port)),
   ("token", (sp.get? "token").getD .null),
   ("local_addr", sp.getD "local_addr" (.s "127.0.0.1")),
   ("local_port", (sp.get? "local_port").getD .null)]

/-- Chisel panel-host resolution of _reset_core (core_health.py:372-389):
explicit spec field, else host part of the node's last-reported panel
address, falling back to the env public IP and finally loopback.  The
outer `none` models the AttributeError raised (and caught per tunnel)
when node_metadata is NULL. -/
def chiselPanelHostReset (env : Env) (meta : Option NodeMetadata) (sp : Spec) :
    Option String :=
  let resolve : Option String → String := fun ph =>
    let needFallback :=
      match ph with
      | none => true
      | some h => h == "" || h == "localhost" || h == "127.0.0.1" || h == "::1"
    if needFallback then
      match validPublicIp env with
      | some ip => ip
      | none => "127.0.0.1"
    else ph.getD "127.0.0.1"
  match truthyVal (sp.get? "panel_host") with
  | some v => some (resolve (some v.pyStr))
  | none =>
    match meta with
    | none => none
    | some m =>
      let pa := (m.panel_address.getD (.s "")).pyStr
      some (resolve (if pa == "" then none else some (hostOfAddress pa)))

/-- Chisel node-facing spec built by _reset_core (core_health.py:361-411):
`none` models the `continue` on a missing listen port and the caught
exception on NULL metadata. -/
def chiselResetSpec (ipv6 : String → Bool) (env : Env) (meta : Option NodeMetadata)
    (sp : Spec) : Option Spec :=
  match truthyVal (pyOr (sp.get? "listen_port")
      (pyOr (sp.get? "remote_port") (sp.get? "server_port"))) with
  | none => none
  | some lp =>
    let server_control_port := chiselControlPort sp lp
    let reverse_port := lp.toNatD
    match chiselPanelHostReset env meta sp with
    | none => none
    | some panel_host =>
      let server_url := chiselServerUrl ipv6 panel_host server_control_port
      let local_addr := sp.getD "local_addr" (.s "127.0.0.1")
      let local_port := (sp.get? "local_port").getD .null
      let reverse_spec := sp.getD "reverse_spec"
        (.s ("R:" ++ toString reverse_port ++ ":" ++ local_addr.pyStr ++ ":" ++ local_port.pyStr))
      some [("server_url", .s server_url), ("reverse_spec", reverse_spec),
            ("auth", (sp.get? "auth").getD .null),
            ("fingerprint", (sp.get? "fingerprint").getD .null)]

/-- FRP node-facing spec: identical logic in _reset_core
(core_health.py:412-445) and _restore_node_tunnels (main.py:304-339):
overlay server_addr (bracketed when IPv6) and server_port onto a copy of
the spec; `none` models the `continue` when no panel address can be
determined and the caught exception on NULL metadata. -/
def frpSpecForNode (ipv6 : String → Bool) (env : Env) (meta : Option NodeMetadata)
    (sp : Spec) : Option Spec :=
  match meta with
  | none => none
  | some m =>
    let panel_address := (m.panel_address.getD (.s "")).pyStr
    if !(panel_address == "") then
      let panel_host := hostOfAddress panel_address
      let server_addr := if ipv6 panel_host then "[" ++ panel_host ++ "]" else panel_host
      let bind_port := sp.getD "bind_port" (.n 7000)
      some ((sp.set "server_addr" (.s server_addr)).set "server_port" (.n bind_port.toNatD))
    else
      match validPublicIp env with
      | some ip => some (sp.set "server_addr" (.s ip))
      | none => none

/-- Node-facing spec sent by _reset_core for one tunnel
(core_health.py:342-453); `some t.spec` is the untouched copy used for
backhaul. -/
def resetNodeSpecFor (ipv6 : String → Bool) (env : Env) (core : String)
    (meta : Option NodeMetadata) (t : Tunnel) : Option Spec :=
  if core == "backhaul" then some t.spec
  else if core == "rathole" then some (ratholeResetSpec t.spec)
  else if core == "chisel" then chiselResetSpec ipv6 env meta t.spec
  else if core == "frp" then frpSpecForNode ipv6 env meta t.spec
  else some t.spec

/-- The `set(t.node_id for t in active_tunnels if t.node_id)` with
first-seen ordering (core_health.py:331). -/
def nodeIdsOf (tunnels : List Tunnel) : List String :=
  tunnels.foldl (fun acc t =>
    match t.node_id with
    | some nid => if acc.contains nid then acc else acc ++ [nid]
    | none => acc) []

/-- Node-facing phase of _reset_core (core_health.py:331-457): per node,
per tunnel, derive the spec and deliver, pausing 0.5s after each delivery;
a missing node skips its tunnels, a failed derivation skips one tunnel,
and the apply response is ignored. -/
def resetNodeEffects (ipv6 : String → Bool) (env : Env) (st : Store) (core : String)
    (active_tunnels : List Tunnel) : List ResetEffect :=
  (nodeIdsOf active_tunnels).flatMap (fun nid =>
    match List.find? (fun n => n.id == nid) st.nodes with
    | none => []
    | some node =>
      (active_tunnels.filter (fun t => t.node_id == some nid)).flatMap (fun t =>
        match resetNodeSpecFor ipv6 env core node.node_metadata t with
        | some sp => [.deliver nid t.id sp, .sleep]
        | none => []))

/-- _reset_core (core_health.py:253-457): effect trace plus the store as
the session leaves it — the function reads tunnels and nodes, never
assigns to them and never commits, so the store comes back as it went in. -/
def reset_core (app : AppState) (po : ProcOracle) (ipv6 : String → Bool) (env : Env)
    (st : Store) (core : String) : List ResetEffect × Store :=
  let active_tunnels := activeTunnelsOf st core
  (resetLocalEffects app po core active_tunnels
     ++ resetNodeEffects ipv6 env st core active_tunnels,
   st)

/-! ## Startup restore loops (main.py:147-413) -/

/-- Success flag of a process-manager call. -/
def exceptOk (e : Except String Unit) : Bool :=
  match e with
  | .ok _ => true
  | .error _ => false

/-- Field guard of the rathole local restore loop (main.py:158-163). -/
def ratholeEligible (t : Tunnel) : Bool :=
  t.spec.truthy "remote_addr" && t.spec.truthy "token"
    && truthyO (pyOr (t.spec.get? "remote_port") (t.spec.get? "listen_port"))

/-- Field guard of the chisel local restore loop (main.py:211-216). -/
def chiselEligible (t : Tunnel) : Bool :=
  truthyO (pyOr (t.spec.get? "listen_port")
    (pyOr (t.spec.get? "remote_port") (t.spec.get? "server_port")))

/-- Field guard of the frp local restore loop (main.py:253-257). -/
def frpEligible (t : Tunnel) : Bool :=
  (t.spec.getD "bind_port" (.n 7000)).truthy

/-- _restore_rathole_servers (main.py:147-174).  The loop body has no
per-tunnel try/except: only the function-level handler catches a
start_server exception, which therefore aborts the remaining tunnels of
the batch.  Returns (tunnel id, start succeeded) for each start attempted. -/
def restore_rathole_servers (start : String → Except String Unit) :
    List Tunnel → List (String × Bool)
  | [] => []
  | t :: ts =>
    if t.core == "rathole" then
      if ratholeEligible t then
        match start t.id with
        | .ok _ => (t.id, true) :: restore_rathole_servers start ts
        | .error _ => [(t.id, false)]
      else restore_rathole_servers start ts
    else restore_rathole_servers start ts

/-- _restore_backhaul_servers (main.py:177-197): every backhaul tunnel is
attempted, each start wrapped in its own try/except. -/
def restore_backhaul_servers (start : String → Except String Unit) :
    List Tunnel → List (String × Bool)
  | [] => []
  | t :: ts =>
    if t.core == "backhaul" then
      (t.id, exceptOk (start t.id)) :: restore_backhaul_servers start ts
    else restore_backhaul_servers start ts

/-- _restore_chisel_servers (main.py:200-239): tunnels with a truthy
listen-port chain are attempted, each start wrapped in its own
try/except. -/
def restore_chisel_servers (start : String → Except String Unit) :
    List Tunnel → List (String × Bool)
  | [] => []
  | t :: ts =>
    if t.core == "chisel" then
      if chiselEligible t then
        (t.id, exceptOk (start t.id)) :: restore_chisel_servers start ts
      else restore_chisel_servers start ts
    else restore_chisel_servers start ts

/-- _restore_frp_servers (main.py:242-272): tunnels with a truthy
bind_port are attempted, each start wrapped in its own try/except. -/
def restore_frp_servers (start : String → Except String Unit) :
    List Tunnel → List (String × Bool)
  | [] => []
  | t :: ts =>
    if t.core == "frp" then
      if frpEligible t then
        (t.id, exceptOk (start t.id)) :: restore_frp_servers start ts
      else restore_frp_servers start ts
    else restore_frp_servers start ts

/-- The node-side restore filter (main.py:284): managed backend and a
node reference. -/
def nodeTunnelsOf (tunnels : List Tunnel) : List Tunnel :=
  tunnels.filter (fun t =>
    (t.core == "rathole" || t.core == "backhaul" || t.core == "chisel" || t.core == "frp")
      && t.node_id.isSome)

/-- The `panel_host in ["localhost", "127.0.0.1", "::1"]` test of the
restore derivation, over a possibly-unset host (`not panel_host` also
triggers). -/
def restoreIsLocal (ph : Option String) : Bool :=
  match ph with
  | none => true
  | some h => h == "" || h == "localhost" || h == "127.0.0.1" || h == "::1"

/-- Panel-host resolution in _restore_node_tunnels (main.py:351-373):
spec panel_host, node-reported panel address, configured panel_domain,
node IP/fingerprint, and finally "localhost".  `none` models the
AttributeError raised (and caught per tunnel) when node_metadata is NULL
and is consulted. -/
def restoreChiselHost (env : Env) (node : Node) (sp : Spec) : Option String :=
  let ph0 : Option (Option String) :=
    match truthyVal (sp.get? "panel_host") with
    | some v => some (some v.pyStr)
    | none =>
      match node.node_metadata with
      | none => none
      | some m =>
        let pa := (m.panel_address.getD (.s "")).pyStr
        some (if pa == "" then none else some (hostOfAddress pa))
  match ph0 with
  | none => none
  | some ph1 =>
    let ph2 :=
      if restoreIsLocal ph1 then
        match env.panel_domain with
        | some d => if d == "" then ph1 else some d
        | none => ph1
      else ph1
    if restoreIsLocal ph2 then
      match node.node_metadata with
      | none => none
      | some m =>
        let nip :=
          match truthyVal m.ip_address with
          | some v => v.pyStr
          | none => node.fingerprint
        some (if !(nip == "") && !(nip == "localhost") && !(nip == "127.0.0.1")
                  && !(nip == "::1")
              then nip else "localhost")
    else some (ph2.getD "localhost")

/-- Chisel node-facing spec built by _restore_node_tunnels
(main.py:340-384), continued: the spec overlay. -/
def restoreChiselSpec (ipv6 : String → Bool) (env : Env) (node : Node) (sp : Spec) :
    Option Spec :=
  match truthyVal (pyOr (sp.get? "listen_port")
      (pyOr (sp.get? "remote_port") (sp.get? "server_port"))) with
  | none => some sp
  | some lp =>
    let server_control_port := chiselControlPort sp lp
    let reverse_port := lp.toNatD
    match restoreChiselHost env node sp with
    | none => none
    | some host =>
      some (((sp.set "server_url" (.s (chiselServerUrl ipv6 host server_control_port))).set
             "reverse_port" (.n reverse_port)).set "remote_port" (.n lp.toNatD))

/-- Node-facing spec sent by _restore_node_tunnels for one tunnel
(main.py:302-399): frp and chisel overlay derived fields on a copy of the
spec, the other cores send the copy unchanged. -/
def restoreNodeSpecFor (ipv6 : String → Bool) (env : Env) (node : Node) (t : Tunnel) :
    Option Spec :=
  if t.core == "frp" then frpSpecForNode ipv6 env node.node_metadata t.spec
  else if t.core == "chisel" then restoreChiselSpec ipv6 env node t.spec
  else some t.spec

/-- Per-tunnel outcome of the node-facing restore loop. -/
inductive RestoreOutcome where
  | nodeMissing
  | skipped
  | applied (ok : Bool)
  deriving Repr, DecidableEq

/-- _restore_node_tunnels over the filtered node_tunnels list
(main.py:294-410): each tunnel's body is wrapped in try/except, so every
tunnel of the batch is visited whatever the node lookup, the derivation or
the delivery outcome; the send oracle maps a tunnel id to the structured
response of send_to_node. -/
def restore_node_tunnels (ipv6 : String → Bool) (env : Env) (st : Store)
    (send : String → SendResult) : List Tunnel → List (String × RestoreOutcome)
  | [] => []
  | t :: ts =>
    let oc :=
      match t.node_id.bind (fun nid => List.find? (fun n => n.id == nid) st.nodes) with
      | none => RestoreOutcome.nodeMissing
      | some node =>
        match restoreNodeSpecFor ipv6 env node t with
        | none => RestoreOutcome.skipped
        | some _ =>
          match send t.id with
          | .ok _ => RestoreOutcome.applied true
          | .error _ => RestoreOutcome.applied false
    (t.id, oc) :: restore_node_tunnels ipv6 env st send ts

/-! ## Shutdown path (main.py:81-99) -/

/-- Observable step of the lifespan shutdown sequence. -/
inductive ShutdownEffect where
  | cancelResetTask
  | h2stop
  | cleanup (manager : String)
  deriving Repr, DecidableEq

/-- Behaviour switches of the shutdown path: whether app.state holds the
reset task and the h2 server, and whether `h2_server.stop()` raises.
Awaiting the cancelled reset task can only raise CancelledError (the
scheduler loop catches every other exception), which the handler at
main.py:86-89 swallows, so it is not a failure switch. -/
structure ShutdownScenario where
  hasResetTask : Bool
  hasH2 : Bool
  h2StopRaises : Bool
  deriving Repr, DecidableEq

/-- The five cleanup_all calls of main.py:94-99, in source order. -/
def cleanupAllEffects : List ShutdownEffect :=
  [.cleanup "gost_forwarder", .cleanup "rathole_server_manager",
   .cleanup "backhaul_manager", .cleanup "chisel_server_manager",
   .cleanup "frp_server_manager"]

/-- The shutdown half of lifespan (main.py:81-99): the effect trace and
whether the generator finished normally — an exception escaping
`h2_server.stop()` propagates and skips everything after it. -/
def lifespan_shutdown (sc : ShutdownScenario) : List ShutdownEffect × Bool :=
  let t1 := if sc.hasResetTask then [ShutdownEffect.cancelResetTask] else []
  if sc.hasH2 then
    if sc.h2StopRaises then (t1 ++ [.h2stop], false)
    else (t1 ++ [.h2stop] ++ cleanupAllEffects, true)
  else (t1 ++ cleanupAllEffects, true)

/-! ## Concrete fixtures used by closed witness theorems -/

/-- Metadata of a node that has completed the relay handshake (reported
relay port 55000) and self-reports a public API address. -/
def c1meta : NodeMetadata :=
  { frp_remote_port := some (.n 55000), api_address := some (.s "http://203.0.113.9:8888") }

/-- Relayed node fixture. -/
def c1node : Node := { id := "n1", fingerprint := "abc123", node_metadata := some c1meta }

/-- Store with the relay transport enabled and one relayed node. -/
def c1store : Store := { nodes := [c1node], tunnels := [], frp := some { enabled := true } }

/-- Rathole tunnel active on the panel, for the health fixture. -/
def c8tunnel : Tunnel :=
  { id := "t1", core := "rathole", type := "tcp", status := "active",
    spec := [("remote_addr", .s "203.0.113.9:23330"), ("token", .s "tok"),
             ("remote_port", .n 9000)] }

/-- Store with one active rathole tunnel. -/
def c8store : Store := { nodes := [], tunnels := [c8tunnel] }

/-- App state whose rathole manager reports one active server. -/
def c8app : AppState := { rathole_server_manager := some ["t1"] }

/-- Stored reset config row: disabled, 10-minute interval, last reset at
minute 100. -/
def c5cfg : CoreResetConfig :=
  { core := "rathole", enabled := false, interval_minutes := 10,
    last_reset := some 100, next_reset := none }

/-- Enabled reset config row used by the C6 witness. -/
def c6cfg : CoreResetConfig :=
  { core := "rathole", enabled := true, interval_minutes := 10,
    last_reset := some 400, next_reset := some 410 }

/-- Process oracle whose calls all succeed. -/
def okProc : ProcOracle := { stopRes := fun _ => .ok (), startRes := fun _ => .ok () }

/-- Empty store. -/
def emptyStore : Store := { nodes := [], tunnels := [] }

/-- Shutdown scenario with reset task and h2 server present and a clean
h2 stop. -/
def c10sc : ShutdownScenario :=
  { hasResetTask := true, hasH2 := true, h2StopRaises := false }

/-- Fully specified rathole tunnel spec. -/
def c3spec : Spec :=
  [("remote_addr", .s "203.0.113.9:23330"), ("token", .s "tok"), ("remote_port", .n 9000)]

/-- Two active rathole tunnels. -/
def c3t1 : Tunnel :=
  { id := "rt1", core := "rathole", type := "tcp", status := "active", spec := c3spec }

/-- Second rathole tunnel of the batch. -/
def c3t2 : Tunnel :=
  { id := "rt2", core := "rathole", type := "tcp", status := "active", spec := c3spec }

/-- Start oracle that raises for rt1 (e.g. a bind conflict) and succeeds
for every other tunnel. -/
def c3start : String → Except String Unit :=
  fun tid => if tid == "rt1" then .error "bind conflict" else .ok ()

/-- Chisel tunnel spec with listen_port 9000 and no explicit control_port
or reverse_spec. -/
def c4spec : Spec :=
  [("listen_port", .n 9000), ("local_addr", .s "127.0.0.1"), ("local_port", .n 80)]

/-- Metadata of the chisel tunnel's node: it last reported the panel at a
public address. -/
def c4meta : NodeMetadata := { panel_address := some (.s "http://panel.example.com:8000") }

/-- Node referenced by the chisel tunnel. -/
def c4node : Node := { id := "n2", fingerprint := "fp2", node_metadata := some c4meta }

/-! ## Auxiliary string lemmas -/

theorem toDigitsCore_getLast? (b : Nat) :
    ∀ (f n : Nat) (ds : List Char), ds ≠ [] →
      (Nat.toDigitsCore b f n ds).getLast? = ds.getLast? := by
  intro f
  induction f with
  | zero => intro n ds _; rfl
  | succ f ih =>
    intro n ds hds
    show (if n / b = 0 then _ :: ds else Nat.toDigitsCore b f (n / b) (_ :: ds)).getLast? = _
    split
    · cases ds with
      | nil => exact absurd rfl hds
      | cons a t => simp [List.getLast?]
    · rw [ih (n / b) _ (by simp)]
      cases ds with
      | nil => exact absurd rfl hds
      | cons a t => simp [List.getLast?]

theorem repr_data_getLast? (n : Nat) :
    (Nat.repr n).data.getLast? = some (Nat.digitChar (n % 10)) := by
  show (Nat.toDigitsCore 10 (n + 1) n []).getLast? = _
  show (if n / 10 = 0 then _ :: ([] : List Char)
        else Nat.toDigitsCore 10 n (n / 10) (_ :: [])).getLast? = _
  split
  · rfl
  · rw [toDigitsCore_getLast? 10 n (n / 10) _ (by simp)]
    rfl

theorem digitChar_ne_slash (m : Nat) (h : m < 10) : Nat.digitChar m ≠ '/' := by
  interval_cases m <;> decide

theorem rstripSlash_eq_self (s : String) (c : Char)
    (h : s.data.getLast? = some c) (hc : c ≠ '/') : rstripSlash s = s := by
  have hrev : s.data.reverse.head? = some c := by rw [List.head?_reverse]; exact h
  obtain ⟨t, ht⟩ : ∃ t, s.data.reverse = c :: t := by
    cases hl : s.data.reverse with
    | nil => rw [hl] at hrev; simp at hrev
    | cons a t => rw [hl] at hrev; simp at hrev; exact ⟨t, by rw [hrev]⟩
  unfold rstripSlash
  rw [ht, List.dropWhile_cons]
  have hcf : (c == '/') = false := by simp [hc]
  rw [hcf]
  simp only [Bool.false_eq_true, if_false]
  rw [← ht, List.reverse_reverse]

theorem loopback_rstrip (p : Nat) :
    rstripSlash ("http://127.0.0.1:" ++ toString p) = "http://127.0.0.1:" ++ toString p := by
  apply rstripSlash_eq_self _ (Nat.digitChar (p % 10))
  · rw [String.data_append, List.getLast?_append]
    rw [show (toString p).data.getLast? = some (Nat.digitChar (p % 10)) from repr_data_getLast? p]
    rfl
  · exact digitChar_ne_slash _ (Nat.mod_lt _ (by norm_num))

/-! ## C1 -/

/-- C1: for every node whose stored metadata carries a relay port
(`frp_remote_port`) while relay is enabled in settings, every delivery via
`send_to_node` is addressed to `http://127.0.0.1:<that port>` followed by
the endpoint — the loopback address built from the reported port, for any
value of the node's self-reported `api_address`. -/
theorem relayed_send_targets_loopback
    (st : Store) (nid endpoint : String) (node : Node) (m : NodeMetadata)
    (fs : FrpSettings) (p : Nat) (oracle : Nat → AttemptResult)
    (hfind : List.find? (fun n => n.id == nid) st.nodes = some node)
    (hfs : st.frp = some fs) (hen : fs.enabled = true)
    (hm : node.node_metadata = some m) (hp : m.frp_remote_port = some (.n p))
    (hp0 : p ≠ 0) :
    (send_to_node st nid endpoint oracle).url
      = some ("http://127.0.0.1:" ++ toString p ++ endpoint) := by
  have haddr : get_node_address st node = ("http://127.0.0.1:" ++ toString p, true) := by
    unfold get_node_address get_frp_settings
    rw [hfs]
    simp only [hen, if_true]
    unfold truthyVal Node.frpRemotePort
    simp [hm, hp, SVal.truthy, hp0, SVal.pyStr]
  unfold send_to_node
  rw [hfind]
  simp only [haddr, loopback_rstrip]

/-- Closed witness for C1: a node that reported relay port 55000 while the
relay transport is enabled is addressed at the loopback URL, not at its
self-reported `api_address`. -/
theorem relayed_send_targets_loopback_witness :
    (send_to_node c1store "n1" "/api/agent/tunnels/apply" (fun _ => .ok "{}")).url
      = some "http://127.0.0.1:55000/api/agent/tunnels/apply" := by
  have h := relayed_send_targets_loopback c1store "n1" "/api/agent/tunnels/apply"
    c1node c1meta { enabled := true } 55000 (fun _ => .ok "{}")
    rfl rfl rfl rfl rfl (by decide)
  rw [h]
  rfl

/-! ## Retry-loop lemmas (node_client.py:83-106) -/

theorem runAttempts_attempts_le (oracle : Nat → AttemptResult) (u : Bool) (m : Nat) :
    ∀ (r i : Nat) (le : Option String),
      (runAttempts oracle u m i r le).2.1 ≤ r := by
  intro r
  induction r with
  | zero => intro i le; simp [runAttempts]
  | succ r ih =>
    intro i le
    simp only [runAttempts]
    cases oracle i with
    | ok p => simp
    | statusErr c d f => simp
    | netErr msg =>
      by_cases hr : r = 0
      · simp [hr]
      · rw [show (r == 0) = false by simpa using hr]
        simp only [Bool.false_eq_true, if_false]
        have := ih (i + 1) (some msg)
        show (runAttempts oracle u m (i + 1) r (some msg)).2.1 + 1 ≤ r + 1
        omega

theorem runAttempts_sleeps (oracle : Nat → AttemptResult) (u : Bool) (m : Nat) :
    ∀ (r i : Nat) (le : Option String), 1 ≤ r →
      (runAttempts oracle u m i r le).2.2 + 1 = (runAttempts oracle u m i r le).2.1 := by
  intro r
  induction r with
  | zero => intro i le h; omega
  | succ r ih =>
    intro i le _
    simp only [runAttempts]
    cases oracle i with
    | ok p => simp
    | statusErr c d f => simp
    | netErr msg =>
      by_cases hr : r = 0
      · simp [hr]
      · rw [show (r == 0) = false by simpa using hr]
        simp only [Bool.false_eq_true, if_false]
        have := ih (i + 1) (some msg) (by omega)
        show (runAttempts oracle u m (i + 1) r (some msg)).2.2 + 1 + 1
          = (runAttempts oracle u m (i + 1) r (some msg)).2.1 + 1
        omega

theorem runAttempts_retries_netErr (oracle : Nat → AttemptResult) (u : Bool) (m : Nat) :
    ∀ (r i : Nat) (le : Option String) (j : Nat),
      j + 1 < (runAttempts oracle u m i r le).2.1 →
      ∃ msg, oracle (i + j) = .netErr msg := by
  intro r
  induction r with
  | zero => intro i le j h; simp [runAttempts] at h
  | succ r ih =>
    intro i le j h
    simp only [runAttempts] at h
    cases ho : oracle i with
    | ok p => rw [ho] at h; simp at h
    | statusErr c d f => rw [ho] at h; simp at h
    | netErr msg =>
      rw [ho] at h
      by_cases hr : r = 0
      · simp [hr] at h
      · rw [show (r == 0) = false by simpa using hr] at h
        simp only [Bool.false_eq_true, if_false] at h
        cases j with
        | zero => exact ⟨msg, by simpa using ho⟩
        | succ j' =>
          have h2 : j' + 1 + 1 < (runAttempts oracle u m (i + 1) r (some msg)).2.1 + 1 := h
          have hlt : j' + 1 < (runAttempts oracle u m (i + 1) r (some msg)).2.1 := by omega
          obtain ⟨msg', hm⟩ := ih (i + 1) (some msg) j' hlt
          exact ⟨msg', by rw [show i + (j' + 1) = i + 1 + j' by omega]; exact hm⟩

theorem runAttempts_statusErr (oracle : Nat → AttemptResult) (u : Bool) (m : Nat) :
    ∀ (k i r : Nat) (le : Option String) (code : Nat) (detail : Option String) (fb : String),
      k < r →
      (∀ j, j < k → ∃ msg, oracle (i + j) = .netErr msg) →
      oracle (i + k) = .statusErr code detail fb →
      runAttempts oracle u m i r le = (.error (statusErrMsg code detail fb), k + 1, k) := by
  intro k
  induction k with
  | zero =>
    intro i r le code detail fb hk _ ho
    obtain ⟨r', rfl⟩ : ∃ r', r = r' + 1 := ⟨r - 1, by omega⟩
    simp only [runAttempts]
    rw [show oracle i = .statusErr code detail fb by simpa using ho]
  | succ k ih =>
    intro i r le code detail fb hk hnet ho
    obtain ⟨r', rfl⟩ : ∃ r', r = r' + 1 := ⟨r - 1, by omega⟩
    obtain ⟨msg, hmsg⟩ := hnet 0 (by omega)
    simp only [runAttempts]
    rw [show oracle i = .netErr msg by simpa using hmsg]
    rw [show (r' == 0) = false by simp; omega]
    simp only [Bool.false_eq_true, if_false]
    rw [ih (i + 1) r' (some msg) code detail fb (by omega)
      (fun j hj => by
        obtain ⟨msg', hm⟩ := hnet (j + 1) (by omega)
        exact ⟨msg', by rw [show i + 1 + j = i + (j + 1) by omega]; exact hm⟩)
      (by rw [show i + 1 + k = i + (k + 1) by omega]; exact ho)]

theorem runAttempts_allNetErr (oracle : Nat → AttemptResult) (u : Bool) (m : Nat) :
    ∀ (r i : Nat) (le : Option String), 1 ≤ r →
      (∀ j, j < r → ∃ msg, oracle (i + j) = .netErr msg) →
      ∃ msg, runAttempts oracle u m i r le
        = (.error ("Network error: " ++ msg ++ frpNote u m), r, r - 1) := by
  intro r
  induction r with
  | zero => intro i le h; omega
  | succ r ih =>
    intro i le _ hnet
    obtain ⟨msg, hmsg⟩ := hnet 0 (by omega)
    simp only [runAttempts]
    rw [show oracle i = .netErr msg by simpa using hmsg]
    by_cases hr : r = 0
    · subst hr
      simp only [if_pos rfl]
      exact ⟨msg, rfl⟩
    · rw [show (r == 0) = false by simpa using hr]
      simp only [Bool.false_eq_true, if_false]
      obtain ⟨msg', hm⟩ := ih (i + 1) (some msg) (by omega)
        (fun j hj => by
          obtain ⟨msg'', hm2⟩ := hnet (j + 1) (by omega)
          exact ⟨msg'', by rw [show i + 1 + j = i + (j + 1) by omega]; exact hm2⟩)
      refine ⟨msg', ?_⟩
      rw [hm]
      show (SendResult.error ("Network error: " ++ msg' ++ frpNote u m), r + 1, r - 1 + 1)
        = (SendResult.error ("Network error: " ++ msg' ++ frpNote u m), r + 1, r + 1 - 1)
      simp only [Prod.mk.injEq, true_and]
      omega

/-! ## C2 -/

/-- C2: every `send_to_node` call issues at most 3 POST attempts over the
relay transport and exactly 1 direct, with one 1-second sleep strictly
between consecutive attempts; an attempt is retried only after a network
error; an HTTP error status is returned immediately with the decoded
detail and stops further attempts. -/
theorem send_retry_policy
    (st : Store) (nid endpoint : String) (node : Node) (oracle : Nat → AttemptResult)
    (hfind : List.find? (fun n => n.id == nid) st.nodes = some node) :
    ((send_to_node st nid endpoint oracle).attempts
        ≤ (if (get_node_address st node).2 then 3 else 1))
    ∧ (send_to_node st nid endpoint oracle).sleeps + 1
        = (send_to_node st nid endpoint oracle).attempts
    ∧ (∀ j, j + 1 < (send_to_node st nid endpoint oracle).attempts →
        ∃ m, oracle j = .netErr m)
    ∧ (∀ k code detail fallback,
        k < (if (get_node_address st node).2 then 3 else 1) →
        (∀ j, j < k → ∃ m, oracle j = .netErr m) →
        oracle k = .statusErr code detail fallback →
        (send_to_node st nid endpoint oracle).result = .error (statusErrMsg code detail fallback)
          ∧ (send_to_node st nid endpoint oracle).attempts = k + 1)
    ∧ ((get_node_address st node).2 = true →
        (∀ j, j < 3 → ∃ m, oracle j = .netErr m) →
        (send_to_node st nid endpoint oracle).attempts = 3) := by
  have hsend : send_to_node st nid endpoint oracle =
      { result := (runAttempts oracle (get_node_address st node).2
            (if (get_node_address st node).2 then 3 else 1) 0
            (if (get_node_address st node).2 then 3 else 1) none).1,
        url := some (rstripSlash (get_node_address st node).1 ++ endpoint),
        attempts := (runAttempts oracle (get_node_address st node).2
            (if (get_node_address st node).2 then 3 else 1) 0
            (if (get_node_address st node).2 then 3 else 1) none).2.1,
        sleeps := (runAttempts oracle (get_node_address st node).2
            (if (get_node_address st node).2 then 3 else 1) 0
            (if (get_node_address st node).2 then 3 else 1) none).2.2 } := by
    unfold send_to_node
    rw [hfind]
  rw [hsend]
  set u := (get_node_address st node).2 with hu
  set r := if u then 3 else 1 with hr
  have h1r : 1 ≤ r := by rw [hr]; split <;> omega
  refine ⟨runAttempts_attempts_le oracle u r r 0 none,
    runAttempts_sleeps oracle u r r 0 none h1r,
    fun j hj => by simpa using runAttempts_retries_netErr oracle u r r 0 none j hj,
    fun k code detail fallback hk hnet ho => ?_,
    fun huf hnet => ?_⟩
  · have := runAttempts_statusErr oracle u r k 0 r none code detail fallback hk
      (fun j hj => by simpa using hnet j hj) (by simpa using ho)
    rw [this]
    exact ⟨rfl, rfl⟩
  · have hr3 : r = 3 := by rw [hr, huf]; rfl
    obtain ⟨msg, hm⟩ := runAttempts_allNetErr oracle u r r 0 none h1r
      (fun j hj => by simpa using hnet j (by omega))
    rw [hm]
    exact hr3

/-- Closed witness for C2: over the relay, a persistently failing network
yields exactly 3 attempts. -/
theorem send_retry_policy_witness :
    (send_to_node c1store "n1" "/api/agent/tunnels/apply"
      (fun _ => .netErr "connection refused")).attempts = 3 := by
  have h := send_retry_policy c1store "n1" "/api/agent/tunnels/apply" c1node
    (fun _ => .netErr "connection refused") rfl
  exact h.2.2.2.2 rfl (fun j _ => ⟨"connection refused", rfl⟩)

/-! ## C7 -/

/-- C7: `send_to_node` and `get_tunnel_status` always return a structured
result dictionary (they are total functions into `SendOutcome`): an unknown
node id yields the node-not-found error message, exhaustion of attempts on
network failures yields a `"Network error: ..."` result, and a remote HTTP
error status yields an error result carrying the decoded detail. -/
theorem send_results_structured
    (st : Store) (nid endpoint : String) (oracle : Nat → AttemptResult)
    (oracle1 : AttemptResult) :
    (List.find? (fun n => n.id == nid) st.nodes = none →
        (send_to_node st nid endpoint oracle).result
            = .error ("Node " ++ nid ++ " not found")
          ∧ (get_tunnel_status st nid oracle1).result
            = .error ("Node " ++ nid ++ " not found"))
    ∧ (∀ node, List.find? (fun n => n.id == nid) st.nodes = some node →
        (∀ j, j < (if (get_node_address st node).2 then 3 else 1) →
            ∃ m, oracle j = .netErr m) →
        ∃ m, (send_to_node st nid endpoint oracle).result
            = .error ("Network error: " ++ m))
    ∧ (∀ node code detail fallback,
        List.find? (fun n => n.id == nid) st.nodes = some node →
        oracle 0 = .statusErr code detail fallback →
        (send_to_node st nid endpoint oracle).result
          = .error ("Node error (HTTP " ++ toString code ++ "): " ++ detail.getD fallback))
    ∧ (∀ node m, List.find? (fun n => n.id == nid) st.nodes = some node →
        oracle1 = .netErr m →
        (get_tunnel_status st nid oracle1).result = .error ("Network error: " ++ m))
    ∧ (∀ node code detail fallback,
        List.find? (fun n => n.id == nid) st.nodes = some node →
        oracle1 = .statusErr code detail fallback →
        (get_tunnel_status st nid oracle1).result
          = .error ("Node error (HTTP " ++ toString code ++ "): " ++ detail.getD fallback)) := by
  refine ⟨fun hnone => ?_, fun node hfind hnet => ?_, fun node code d f hfind ho => ?_,
    fun node m hfind ho => ?_, fun node code d f hfind ho => ?_⟩
  · constructor
    · unfold send_to_node; rw [hnone]
    · unfold get_tunnel_status; rw [hnone]
  · have hsend : (send_to_node st nid endpoint oracle).result =
        (runAttempts oracle (get_node_address st node).2
          (if (get_node_address st node).2 then 3 else 1) 0
          (if (get_node_address st node).2 then 3 else 1) none).1 := by
      unfold send_to_node; rw [hfind]
    have h1r : 1 ≤ (if (get_node_address st node).2 then 3 else 1) := by split <;> omega
    obtain ⟨msg, hm⟩ := runAttempts_allNetErr oracle (get_node_address st node).2
      (if (get_node_address st node).2 then 3 else 1)
      (if (get_node_address st node).2 then 3 else 1) 0 none h1r
      (fun j hj => by simpa using hnet j hj)
    refine ⟨msg ++ frpNote (get_node_address st node).2
      (if (get_node_address st node).2 then 3 else 1), ?_⟩
    rw [hsend, hm]
    simp [String.append_assoc]
  · have hsend : (send_to_node st nid endpoint oracle).result =
        (runAttempts oracle (get_node_address st node).2
          (if (get_node_address st node).2 then 3 else 1) 0
          (if (get_node_address st node).2 then 3 else 1) none).1 := by
      unfold send_to_node; rw [hfind]
    have h1r : 0 < (if (get_node_address st node).2 then 3 else 1) := by split <;> omega
    have := runAttempts_statusErr oracle (get_node_address st node).2
      (if (get_node_address st node).2 then 3 else 1) 0 0
      (if (get_node_address st node).2 then 3 else 1) none code d f h1r
      (fun j hj => absurd hj (by omega)) (by simpa using ho)
    rw [hsend, this]
    rfl
  · unfold get_tunnel_status
    rw [hfind, ho]
  · unfold get_tunnel_status
    rw [hfind, ho]
    rfl

/-- Closed witness for C7: an unknown node id yields the structured
node-not-found result from both entry points. -/
theorem send_results_structured_witness :
    (send_to_node { nodes := [], tunnels := [] } "ghost" "/api/agent/tunnels/apply"
        (fun _ => .ok "{}")).result = .error "Node ghost not found"
    ∧ (get_tunnel_status { nodes := [], tunnels := [] } "ghost"
        (.ok "{}")).result = .error "Node ghost not found" := by
  have h := (send_results_structured { nodes := [], tunnels := [] } "ghost"
    "/api/agent/tunnels/apply" (fun _ => .ok "{}") (.ok "{}")).1 rfl
  exact ⟨by rw [h.1]; rfl, by rw [h.2]; rfl⟩

/-! ## C8 -/

/-- Health verdict of one manager branch, as an iff. -/
theorem panelHealthBranch_iff (manager : Option (List String)) (ts : List Tunnel) :
    (panelHealthBranch manager ts).2 = true ↔
      ts.length = 0 ∨ 0 < (manager.getD []).length := by
  cases manager with
  | none =>
    simp only [panelHealthBranch, Option.getD_none, List.length_nil]
    constructor
    · intro h
      exact Or.inl (by simpa using h)
    · rintro (h | h)
      · simpa using h
      · omega
  | some l =>
    simp only [panelHealthBranch, Option.getD_some]
    by_cases hts : ts.length > 0
    · rw [if_pos hts]
      by_cases hl : l.length > 0
      · rw [if_pos hl]
        exact ⟨fun _ => Or.inr hl, fun _ => rfl⟩
      · rw [if_neg hl]
        exact ⟨fun h => by simp at h, fun h => by rcases h with h | h <;> omega⟩
    · rw [if_neg hts]
      exact ⟨fun _ => Or.inl (by omega), fun _ => rfl⟩

/-- C8: for every backend-core, the panel side of the health report is
healthy iff the core has zero active tunnels or its local process manager
reports at least one active server. -/
theorem core_health_panel_iff (app : AppState) (st : Store) (core : String)
    (hc : core ∈ CORES) :
    (get_core_health_panel app st core).2 = true ↔
      (activeTunnelsOf st core).length = 0 ∨ 0 < (managerServersFor app core).length := by
  fin_cases hc <;>
    simp only [get_core_health_panel, managerServersFor] <;>
    exact panelHealthBranch_iff _ _

/-- Closed witness for C8: one active rathole tunnel, one active server
process reported, panel side healthy. -/
theorem core_health_panel_iff_witness :
    (get_core_health_panel c8app c8store "rathole").2 = true := by
  have h := core_health_panel_iff c8app c8store "rathole" (by decide)
  exact h.mpr (Or.inr (by decide))

/-! ## C5 -/

/-- recomputeNext yields the spec invariant whenever the interval is
positive. -/
theorem recomputeNext_invariant (now : Nat) (c : CoreResetConfig)
    (hi : 1 ≤ c.interval_minutes) : ResetInvariant (recomputeNext now c) := by
  unfold recomputeNext ResetInvariant
  have hne : (c.interval_minutes == 0) = false := by simp; omega
  cases he : c.enabled with
  | false => simp [he]
  | true =>
    simp only [he, hne, Bool.not_false, Bool.and_self, if_pos]
    cases hl : c.last_reset with
    | none => simp
    | some t => simp

/-- The recomputation clears next_reset for a disabled row. -/
theorem recomputeNext_disabled (now : Nat) (c : CoreResetConfig)
    (he : c.enabled = false) : (recomputeNext now c).next_reset = none := by
  unfold recomputeNext
  rw [he]
  simp

/-- C5: after a successful reset-config update the row satisfies the
invariant (next_reset null iff disabled; enabled with last_reset = T gives
next_reset = T + interval, via `ResetInvariant`), and disabling clears
next_reset; a scheduler firing preserves the invariant, and a due firing
on an enabled row writes last_reset = now and next_reset = now + interval. -/
theorem reset_config_next_reset_invariant
    (now : Nat) (core : String) (cfg0 : Option CoreResetConfig) (upd : ResetConfigUpdate)
    (cfg' cfg : CoreResetConfig) (resetOk : Bool) :
    (update_reset_config now core cfg0 upd = .ok cfg' →
      (∀ c, cfg0 = some c → 1 ≤ c.interval_minutes) →
      ResetInvariant cfg' ∧ (upd.enabled = some false → cfg'.next_reset = none))
    ∧ (ResetInvariant cfg → ResetInvariant (scheduler_fire now resetOk cfg))
    ∧ (∀ nr, cfg.next_reset = some nr → nr ≤ now → resetOk = true →
        scheduler_fire now resetOk cfg
          = { cfg with last_reset := some now,
                       next_reset := some (now + cfg.interval_minutes) }) := by
  refine ⟨fun hok hiv => ?_, fun hinv => ?_, fun nr hnr hle hok => ?_⟩
  · unfold update_reset_config at hok
    cases hC : CORES.contains core with
    | false => rw [hC] at hok; simp at hok
    | true =>
      rw [hC] at hok
      simp only [Bool.not_true, Bool.false_eq_true, if_false] at hok
      have hbase : 1 ≤ (cfg0.getD
          { core := core, enabled := false, interval_minutes := 10 }).interval_minutes := by
        cases h0 : cfg0 with
        | none => simp
        | some c => simpa using hiv c h0
      set base := cfg0.getD { core := core, enabled := false, interval_minutes := 10 }
        with hbdef
      set cfg1 := (match upd.enabled with
        | some e => { base with enabled := e }
        | none => base) with h1def
      have h1i : cfg1.interval_minutes = base.interval_minutes := by
        rw [h1def]
        cases upd.enabled <;> rfl
      have h1e : upd.enabled = some false → cfg1.enabled = false := by
        intro h
        rw [h1def, h]
      cases hui : upd.interval_minutes with
      | none =>
        rw [hui] at hok
        simp only [Except.ok.injEq] at hok
        subst hok
        refine ⟨recomputeNext_invariant now cfg1 (by omega), fun hf =>
          recomputeNext_disabled now cfg1 (h1e hf)⟩
      | some i =>
        rw [hui] at hok
        replace hok : (if i < 1 then (Except.error "Interval must be at least 1 minute")
            else Except.ok (recomputeNext now { cfg1 with interval_minutes := i }))
            = Except.ok cfg' := hok
        by_cases hlt : i < 1
        case pos => rw [if_pos hlt] at hok; simp at hok
        case neg =>
          rw [if_neg hlt] at hok
          simp only [Except.ok.injEq] at hok
          subst hok
          refine ⟨recomputeNext_invariant now _ (by simp; omega),
            fun hf => recomputeNext_disabled now _ ?_⟩
          show cfg1.enabled = false
          exact h1e hf
  · unfold scheduler_fire
    cases hn : cfg.next_reset with
    | none => exact hinv
    | some nr =>
      show ResetInvariant
        (if nr ≤ now then if resetOk = true then scheduler_bookkeeping now cfg else cfg else cfg)
      by_cases hle : nr ≤ now
      · rw [if_pos hle]
        cases resetOk with
        | false => exact hinv
        | true =>
          have he : cfg.enabled = true := by
            rcases hinv with ⟨hiff, _⟩
            cases hE : cfg.enabled with
            | true => rfl
            | false =>
              have := hiff.mpr hE
              rw [hn] at this
              cases this
          unfold scheduler_bookkeeping ResetInvariant
          constructor
          · simp [he]
          · intro t ht _
            simp only [CoreResetConfig.mk.injEq] at ht ⊢
            simp at ht
            simp [ht]
      · rw [if_neg hle]
        exact hinv
  · unfold scheduler_fire
    rw [hnr]
    show (if nr ≤ now then if resetOk = true then scheduler_bookkeeping now cfg else cfg else cfg)
      = _
    rw [if_pos hle, hok]
    rfl

/-- Closed witness for C5: enabling the stored row (interval 10,
last_reset = 100) yields next_reset = 110 and the invariant. -/
theorem reset_config_next_reset_invariant_witness :
    update_reset_config 200 "rathole" (some c5cfg) { enabled := some true }
      = .ok { core := "rathole", enabled := true, interval_minutes := 10,
              last_reset := some 100, next_reset := some 110 }
    ∧ ResetInvariant { core := "rathole", enabled := true, interval_minutes := 10,
                       last_reset := some 100, next_reset := some 110 } := by
  have hok : update_reset_config 200 "rathole" (some c5cfg) { enabled := some true }
      = .ok { core := "rathole", enabled := true, interval_minutes := 10,
              last_reset := some 100, next_reset := some 110 } := by rfl
  have h := (reset_config_next_reset_invariant 200 "rathole" (some c5cfg)
    { enabled := some true }
    { core := "rathole", enabled := true, interval_minutes := 10,
      last_reset := some 100, next_reset := some 110 }
    c5cfg true).1 hok
    (fun c hc => by cases hc; decide)
  exact ⟨hok, h.1⟩

/-! ## C6 -/

/-- C6: resetting a core with zero active tunnels produces no stop/start
calls and no node deliveries, while the manual-reset bookkeeping still
advances last_reset (and next_reset when enabled) exactly as the
scheduler's bookkeeping does. -/
theorem manual_reset_zero_tunnels
    (app : AppState) (po : ProcOracle) (ipv6 : String → Bool) (env : Env)
    (st : Store) (core : String) (now : Nat) (cfg : CoreResetConfig)
    (hz : activeTunnelsOf st core = []) :
    (reset_core app po ipv6 env st core).1 = []
    ∧ (manual_reset_bookkeeping now (some cfg)).map (fun c => c.last_reset)
        = some (some now)
    ∧ (cfg.enabled = true → cfg.interval_minutes ≠ 0 →
        manual_reset_bookkeeping now (some cfg) = some (scheduler_bookkeeping now cfg)) := by
  refine ⟨?_, ?_, fun he hi => ?_⟩
  · show resetLocalEffects app po core (activeTunnelsOf st core)
      ++ resetNodeEffects ipv6 env st core (activeTunnelsOf st core) = []
    rw [hz]
    unfold resetLocalEffects resetNodeEffects nodeIdsOf
    simp
  · unfold manual_reset_bookkeeping
    by_cases hc : (cfg.enabled && !(cfg.interval_minutes == 0)) = true
    · simp only [hc, if_pos]
      rfl
    · simp only [hc, if_neg]
      rfl
  · unfold manual_reset_bookkeeping scheduler_bookkeeping
    have hc : (cfg.enabled && !(cfg.interval_minutes == 0)) = true := by
      simp [he, hi]
    simp only [hc, if_pos]

/-- Closed witness for C6: empty store, enabled config with a 10-minute
interval. -/
theorem manual_reset_zero_tunnels_witness :
    (reset_core { } okProc (fun _ => false) { } emptyStore "rathole").1 = []
    ∧ manual_reset_bookkeeping 500 (some c6cfg)
        = some (scheduler_bookkeeping 500 c6cfg) := by
  have h := manual_reset_zero_tunnels { } okProc (fun _ => false) { }
    emptyStore "rathole" 500 c6cfg rfl
  exact ⟨h.1, h.2.2 rfl (by decide)⟩

/-! ## C9 -/

/-- Local restart effects never contain a delivery. -/
theorem resetLocal_no_deliver (app : AppState) (po : ProcOracle) (core : String)
    (ts : List Tunnel) (nid tid : String) (sp : Spec) :
    ResetEffect.deliver nid tid sp ∉ resetLocalEffects app po core ts := by
  unfold resetLocalEffects
  intro h
  split at h
  · rw [List.mem_flatMap] at h
    obtain ⟨t, _, ht⟩ := h
    unfold localRestartEffects at ht
    cases hs : po.stopRes t.id with
    | ok v => rw [hs] at ht; simp at ht
    | error e => rw [hs] at ht; simp at ht
  · simp at h

/-- Every delivery of the node-facing phase carries a spec derived on the
spot from a stored tunnel. -/
theorem resetNode_deliver_inv (ipv6 : String → Bool) (env : Env) (st : Store)
    (core : String) (ts : List Tunnel) (nid tid : String) (sp : Spec)
    (h : ResetEffect.deliver nid tid sp ∈ resetNodeEffects ipv6 env st core ts) :
    ∃ node t, List.find? (fun n => n.id == nid) st.nodes = some node
      ∧ t ∈ ts ∧ t.id = tid ∧ t.node_id = some nid
      ∧ resetNodeSpecFor ipv6 env core node.node_metadata t = some sp := by
  unfold resetNodeEffects at h
  rw [List.mem_flatMap] at h
  obtain ⟨nid1, hnid1, h⟩ := h
  cases hf : List.find? (fun n => n.id == nid1) st.nodes with
  | none => rw [hf] at h; simp at h
  | some node =>
    rw [hf] at h
    rw [List.mem_flatMap] at h
    obtain ⟨t, ht, h⟩ := h
    rw [List.mem_filter] at ht
    cases hd : resetNodeSpecFor ipv6 env core node.node_metadata t with
    | none => rw [hd] at h; simp at h
    | some sp1 =>
      rw [hd] at h
      simp only [List.mem_cons, List.mem_singleton, List.not_mem_nil, or_false] at h
      rcases h with h | h
      · obtain ⟨h1, h2, h3⟩ := ResetEffect.deliver.inj h
        subst h1; subst h2; subst h3
        have hnode_id : t.node_id = some nid := by simpa using ht.2
        exact ⟨node, t, hf, ht.1, rfl, hnode_id, hd⟩
      · cases h

/-- C9: _reset_core leaves the store — in particular every stored tunnel's
canonical spec — unchanged; resetting again from the resulting store is
the same operation; and every spec delivered to a node is the derived
per-call view recomputed from a stored tunnel, not a written-back value. -/
theorem reset_core_frame (app : AppState) (po : ProcOracle) (ipv6 : String → Bool)
    (env : Env) (st : Store) (core : String) :
    (reset_core app po ipv6 env st core).2 = st
    ∧ reset_core app po ipv6 env (reset_core app po ipv6 env st core).2 core
        = reset_core app po ipv6 env st core
    ∧ (∀ nid tid sp,
        ResetEffect.deliver nid tid sp ∈ (reset_core app po ipv6 env st core).1 →
        ∃ node t, List.find? (fun n => n.id == nid) st.nodes = some node
          ∧ t ∈ activeTunnelsOf st core ∧ t.id = tid ∧ t.node_id = some nid
          ∧ resetNodeSpecFor ipv6 env core node.node_metadata t = some sp) := by
  refine ⟨rfl, rfl, fun nid tid sp hmem => ?_⟩
  replace hmem : ResetEffect.deliver nid tid sp ∈
      resetLocalEffects app po core (activeTunnelsOf st core)
        ++ resetNodeEffects ipv6 env st core (activeTunnelsOf st core) := hmem
  rw [List.mem_append] at hmem
  rcases hmem with hmem | hmem
  · exact absurd hmem (resetLocal_no_deliver app po core _ nid tid sp)
  · exact resetNode_deliver_inv ipv6 env st core _ nid tid sp hmem

/-! ## C10 -/

/-- C10: whenever the lifespan shutdown sequence runs to completion, its
trace ends with cleanup_all on all five backend process managers, and the
reset-scheduler cancellation (when a task was registered) happened before
them. -/
theorem shutdown_always_cleans_up (sc : ShutdownScenario)
    (h : (lifespan_shutdown sc).2 = true) :
    ∃ pre, (lifespan_shutdown sc).1 = pre ++ cleanupAllEffects
      ∧ (sc.hasResetTask = true → ShutdownEffect.cancelResetTask ∈ pre) := by
  rcases sc with ⟨rt, h2, hr⟩
  cases rt <;> cases h2 <;> cases hr <;>
    first
      | exact absurd h (by decide)
      | exact ⟨[], rfl, fun hrt => by cases hrt⟩
      | exact ⟨[.cancelResetTask], rfl, fun _ => by decide⟩
      | exact ⟨[.h2stop], rfl, fun hrt => by cases hrt⟩
      | exact ⟨[.cancelResetTask, .h2stop], rfl, fun _ => by decide⟩

/-- Closed witness for C10: reset task and h2 server present, stop
succeeds: the five cleanups follow the cancellation. -/
theorem shutdown_always_cleans_up_witness :
    ∃ pre, (lifespan_shutdown c10sc).1 = pre ++ cleanupAllEffects
      ∧ (c10sc.hasResetTask = true → ShutdownEffect.cancelResetTask ∈ pre) :=
  shutdown_always_cleans_up c10sc rfl

/-! ## C3 -/

/-- Counterexample to C3 as stated: in the rathole local restore loop a
start_server exception on the first tunnel aborts the batch — the second
fully-specified active rathole tunnel is never attempted, because
main.py:147-174 has no per-tunnel try/except around start_server. -/
theorem restore_rathole_aborts_batch :
    restore_rathole_servers c3start [c3t1, c3t2] = [("rt1", false)]
    ∧ ((restore_rathole_servers c3start [c3t1, c3t2]).map Prod.fst).contains "rt2"
        = false := by
  exact ⟨rfl, rfl⟩

/-- Coverage of the backhaul local restore loop, for any start oracle. -/
theorem restore_backhaul_cover (start : String → Except String Unit) (ts : List Tunnel) :
    (restore_backhaul_servers start ts).map Prod.fst
      = (ts.filter (fun t => t.core == "backhaul")).map Tunnel.id := by
  induction ts with
  | nil => rfl
  | cons t ts ih =>
    by_cases h : (t.core == "backhaul") = true <;>
      simp [restore_backhaul_servers, List.filter_cons, h, ih]

/-- Coverage of the chisel local restore loop, for any start oracle. -/
theorem restore_chisel_cover (start : String → Except String Unit) (ts : List Tunnel) :
    (restore_chisel_servers start ts).map Prod.fst
      = (ts.filter (fun t => t.core == "chisel" && chiselEligible t)).map Tunnel.id := by
  induction ts with
  | nil => rfl
  | cons t ts ih =>
    by_cases h : (t.core == "chisel") = true
    · by_cases he : chiselEligible t = true <;>
        simp [restore_chisel_servers, List.filter_cons, h, he, ih]
    · simp [restore_chisel_servers, List.filter_cons, h, ih]

/-- Coverage of the frp local restore loop, for any start oracle. -/
theorem restore_frp_cover (start : String → Except String Unit) (ts : List Tunnel) :
    (restore_frp_servers start ts).map Prod.fst
      = (ts.filter (fun t => t.core == "frp" && frpEligible t)).map Tunnel.id := by
  induction ts with
  | nil => rfl
  | cons t ts ih =>
    by_cases h : (t.core == "frp") = true
    · by_cases he : frpEligible t = true <;>
        simp [restore_frp_servers, List.filter_cons, h, he, ih]
    · simp [restore_frp_servers, List.filter_cons, h, ih]

/-- Coverage of the node-facing restore loop: every tunnel of the batch
is visited, for any oracles. -/
theorem restore_node_cover (ipv6 : String → Bool) (env : Env) (st : Store)
    (send : String → SendResult) (ts : List Tunnel) :
    (restore_node_tunnels ipv6 env st send ts).map Prod.fst = ts.map Tunnel.id := by
  induction ts with
  | nil => rfl
  | cons t ts ih =>
    simp only [restore_node_tunnels, List.map_cons, ih]

/-- Conditional coverage of the rathole local restore loop: the batch is
fully processed only when no eligible tunnel's start raises. -/
theorem restore_rathole_cover (start : String → Except String Unit) (ts : List Tunnel)
    (hok : ∀ t ∈ ts, t.core = "rathole" → ratholeEligible t = true →
      exceptOk (start t.id) = true) :
    (restore_rathole_servers start ts).map Prod.fst
      = (ts.filter (fun t => t.core == "rathole" && ratholeEligible t)).map Tunnel.id := by
  induction ts with
  | nil => rfl
  | cons t ts ih =>
    have ihr := ih (fun u hu => hok u (List.mem_cons_of_mem t hu))
    by_cases h : (t.core == "rathole") = true
    · by_cases he : ratholeEligible t = true
      · have hs := hok t (List.mem_cons_self t ts) (by simpa using h) he
        cases hst : start t.id with
        | ok v =>
          simp [restore_rathole_servers, List.filter_cons, h, he, hst, ihr]
        | error e =>
          rw [hst] at hs
          simp [exceptOk] at hs
      · simp [restore_rathole_servers, List.filter_cons, h, he, ihr]
    · simp [restore_rathole_servers, List.filter_cons, h, ihr]

/-- C3 amended: per-tunnel failures are isolated in the backhaul, chisel
and frp local restore loops and in the node-facing restore loop — every
tunnel of the batch is reached whatever the per-tunnel outcomes; the
rathole local restore loop, lacking a per-tunnel try/except, covers its
batch only when no eligible tunnel's process start raises. -/
theorem restore_loops_fault_isolation
    (start : String → Except String Unit) (ipv6 : String → Bool) (env : Env)
    (st : Store) (send : String → SendResult) (ts : List Tunnel) :
    ((restore_backhaul_servers start ts).map Prod.fst
        = (ts.filter (fun t => t.core == "backhaul")).map Tunnel.id)
    ∧ ((restore_chisel_servers start ts).map Prod.fst
        = (ts.filter (fun t => t.core == "chisel" && chiselEligible t)).map Tunnel.id)
    ∧ ((restore_frp_servers start ts).map Prod.fst
        = (ts.filter (fun t => t.core == "frp" && frpEligible t)).map Tunnel.id)
    ∧ ((restore_node_tunnels ipv6 env st send (nodeTunnelsOf ts)).map Prod.fst
        = (nodeTunnelsOf ts).map Tunnel.id)
    ∧ ((∀ t ∈ ts, t.core = "rathole" → ratholeEligible t = true →
          exceptOk (start t.id) = true) →
        (restore_rathole_servers start ts).map Prod.fst
          = (ts.filter (fun t => t.core == "rathole" && ratholeEligible t)).map Tunnel.id) :=
  ⟨restore_backhaul_cover start ts, restore_chisel_cover start ts,
   restore_frp_cover start ts, restore_node_cover ipv6 env st send (nodeTunnelsOf ts),
   fun hok => restore_rathole_cover start ts hok⟩

/-- Closed witness for C3 (amended): the two-tunnel rathole batch is fully
covered when both starts succeed. -/
theorem restore_loops_fault_isolation_witness :
    (restore_rathole_servers (fun _ => .ok ()) [c3t1, c3t2]).map Prod.fst
      = ["rt1", "rt2"] := by
  have h := (restore_loops_fault_isolation (fun _ => .ok ()) (fun _ => false) { }
    emptyStore (fun _ => .ok "{}") [c3t1, c3t2]).2.2.2.2
    (fun t _ _ _ => rfl)
  rw [h]
  rfl

/-! ## C4 -/

/-- find? for one key skips entries removed by filtering out a different
key. -/
theorem find?_filter_ne (sp : Spec) (k k' : String) (h : (k' == k) = false) :
    List.find? (fun e => e.1 == k') (sp.filter (fun e => !(e.1 == k)))
      = List.find? (fun e => e.1 == k') sp := by
  induction sp with
  | nil => rfl
  | cons e sp ih =>
    rw [List.filter_cons]
    by_cases he : (e.1 == k) = true
    · have hek : (e.1 == k') = false := by
        have h' : k' ≠ k := by simpa using h
        have he' : e.1 = k := by simpa using he
        simp only [he', beq_eq_false_iff_ne]
        exact fun hk => h' hk.symm
      simp only [he, Bool.not_true, Bool.false_eq_true, if_false]
      rw [List.find?_cons, hek, ih]
    · have he' : (!(e.1 == k)) = true := by simp [he]
      simp only [he', if_pos]
      rw [List.find?_cons, List.find?_cons]
      cases hk : (e.1 == k') with
      | true => rfl
      | false => exact ih

/-- Lookup after a dict item assignment. -/
theorem Spec.get?_set (sp : Spec) (k k' : String) (v : SVal) :
    (sp.set k v).get? k' = if (k' == k) = true then some v else sp.get? k' := by
  unfold Spec.set Spec.get?
  rw [List.find?_cons]
  by_cases h : (k' == k) = true
  · have h' : k' = k := by simpa using h
    have hk : ((k, v).1 == k') = true := by
      simp only [beq_iff_eq]
      exact h'.symm
    rw [hk, if_pos h]
    rfl
  · have h' : k' ≠ k := by simpa using h
    have hk : ((k, v).1 == k') = false := by
      simp only [beq_eq_false_iff_ne]
      exact fun he => h' he.symm
    rw [hk, if_neg h, find?_filter_ne sp k k' (by simpa using h)]

/-- The reset-path host resolution always produces a host when the node
has metadata. -/
theorem chiselPanelHostReset_isSome (env : Env) (m : NodeMetadata) (sp : Spec) :
    ∃ h, chiselPanelHostReset env (some m) sp = some h := by
  unfold chiselPanelHostReset
  cases hph : truthyVal (sp.get? "panel_host") with
  | some v => exact ⟨_, rfl⟩
  | none => exact ⟨_, rfl⟩

/-- The restore-path host resolution always produces a host when the node
has metadata. -/
theorem restoreChiselHost_isSome (env : Env) (node : Node) (m : NodeMetadata) (sp : Spec)
    (hm : node.node_metadata = some m) :
    ∃ h, restoreChiselHost env node sp = some h := by
  unfold restoreChiselHost
  rw [hm]
  cases hph : truthyVal (sp.get? "panel_host") with
  | some v =>
    repeat' split
    all_goals first
      | exact ⟨_, rfl⟩
      | simp_all
    all_goals repeat' split
    all_goals exact ⟨_, rfl⟩
  | none =>
    repeat' split
    all_goals first
      | exact ⟨_, rfl⟩
      | simp_all
    all_goals repeat' split
    all_goals exact ⟨_, rfl⟩

/-- Counterexample to C4 as stated: for a chisel tunnel with
listen_port 9000 and no explicit reverse_spec, the restore-path derived
node-facing spec (main.py:340-384) carries no reverse spec at all — it
sets reverse_port instead — even though its server URL does use control
port 19000. -/
theorem chisel_restore_missing_reverse_spec :
    (restoreChiselSpec (fun _ => false) { } c4node c4spec).map
        (fun d => d.get? "reverse_spec") = some none
    ∧ (restoreChiselSpec (fun _ => false) { } c4node c4spec).map
        (fun d => d.get? "server_url")
      = some (some (.s "http://panel.example.com:19000")) := by
  exact ⟨rfl, rfl⟩

/-- C4 amended: with listen_port set and no explicit control_port, both
the reset-path and the restore-path derivations place control port
listen_port+10000 in the server URL; the reverse spec defaulting to
R:<listen_port>:<local_addr>:<local_port> is produced only by the
reset-path derivation, while the restore path sets reverse_port (and
remote_port) to listen_port on a copy of the stored spec and carries no
reverse_spec when the spec has none. -/
theorem chisel_derivation_control_and_reverse
    (ipv6 : String → Bool) (env : Env) (node : Node) (m : NodeMetadata) (sp : Spec)
    (la : String) (lp lsp : Nat)
    (hm : node.node_metadata = some m)
    (hlp : sp.get? "listen_port" = some (.n lsp)) (hlp0 : lsp ≠ 0)
    (hcp : sp.get? "control_port" = none)
    (hrs : sp.get? "reverse_spec" = none)
    (hla : sp.get? "local_addr" = some (.s la))
    (hlo : sp.get? "local_port" = some (.n lp)) :
    ∃ hostR hostN,
      (chiselResetSpec ipv6 env (some m) sp).map (fun d => d.get? "server_url")
          = some (some (.s (chiselServerUrl ipv6 hostR (lsp + 10000))))
      ∧ (chiselResetSpec ipv6 env (some m) sp).map (fun d => d.get? "reverse_spec")
          = some (some (.s ("R:" ++ toString lsp ++ ":" ++ la ++ ":" ++ toString lp)))
      ∧ (restoreChiselSpec ipv6 env node sp).map (fun d => d.get? "server_url")
          = some (some (.s (chiselServerUrl ipv6 hostN (lsp + 10000))))
      ∧ (restoreChiselSpec ipv6 env node sp).map (fun d => d.get? "reverse_port")
          = some (some (.n lsp))
      ∧ (restoreChiselSpec ipv6 env node sp).map (fun d => d.get? "reverse_spec")
          = some none := by
  obtain ⟨hostR, hHR⟩ := chiselPanelHostReset_isSome env m sp
  obtain ⟨hostN, hHN⟩ := restoreChiselHost_isSome env node m sp hm
  have htv : truthyVal (pyOr (sp.get? "listen_port")
      (pyOr (sp.get? "remote_port") (sp.get? "server_port"))) = some (.n lsp) := by
    simp [pyOr, truthyVal, hlp, SVal.truthy, hlp0]
  have hctl : chiselControlPort sp (.n lsp) = lsp + 10000 := by
    simp [chiselControlPort, truthyVal, hcp, SVal.toNatD]
  have hreset : chiselResetSpec ipv6 env (some m) sp
      = some [("server_url", .s (chiselServerUrl ipv6 hostR (lsp + 10000))),
              ("reverse_spec", .s ("R:" ++ toString lsp ++ ":" ++ la ++ ":" ++ toString lp)),
              ("auth", (sp.get? "auth").getD .null),
              ("fingerprint", (sp.get? "fingerprint").getD .null)] := by
    have hrsv : sp.getD "reverse_spec"
        (.s ("R:" ++ toString lsp ++ ":" ++ (sp.getD "local_addr" (.s "127.0.0.1")).pyStr
          ++ ":" ++ ((sp.get? "local_port").getD .null).pyStr))
        = .s ("R:" ++ toString lsp ++ ":" ++ la ++ ":" ++ toString lp) := by
      unfold Spec.getD
      rw [hrs, hla, hlo]
      rfl
    unfold chiselResetSpec
    rw [htv]
    simp only [hHR, hctl, SVal.toNatD]
    rw [hrsv]
  have hrestore : restoreChiselSpec ipv6 env node sp
      = some (((sp.set "server_url"
            (.s (chiselServerUrl ipv6 hostN (lsp + 10000)))).set
            "reverse_port" (.n lsp)).set "remote_port" (.n lsp)) := by
    unfold restoreChiselSpec
    rw [htv]
    simp only [hHN, hctl, SVal.toNatD]
  refine ⟨hostR, hostN, ?_, ?_, ?_, ?_, ?_⟩
  · rw [hreset]
    rfl
  · rw [hreset]
    rfl
  · rw [hrestore]
    simp only [Option.map_some']
    rw [Spec.get?_set, Spec.get?_set, Spec.get?_set]
    rfl
  · rw [hrestore]
    simp only [Option.map_some']
    rw [Spec.get?_set, Spec.get?_set]
    rfl
  · rw [hrestore]
    simp only [Option.map_some']
    rw [Spec.get?_set, Spec.get?_set, Spec.get?_set]
    simp only [show (("reverse_spec" : String) == "remote_port") = false from rfl,
      show (("reverse_spec" : String) == "reverse_port") = false from rfl,
      show (("reverse_spec" : String) == "server_url") = false from rfl,
      Bool.false_eq_true, if_false]
    rw [hrs]

/-- Closed witness for C4 (amended) at the concrete fixture: control port
19000 in both server URLs, reverse spec R:9000:127.0.0.1:80 from the
reset path. -/
theorem chisel_derivation_control_and_reverse_witness :
    ∃ hostR hostN,
      (chiselResetSpec (fun _ => false) { } (some c4meta) c4spec).map
          (fun d => d.get? "server_url")
          = some (some (.s (chiselServerUrl (fun _ => false) hostR (9000 + 10000))))
      ∧ (chiselResetSpec (fun _ => false) { } (some c4meta) c4spec).map
          (fun d => d.get? "reverse_spec")
          = some (some (.s ("R:" ++ toString 9000 ++ ":" ++ "127.0.0.1"
              ++ ":" ++ toString 80)))
      ∧ (restoreChiselSpec (fun _ => false) { } c4node c4spec).map
          (fun d => d.get? "server_url")
          = some (some (.s (chiselServerUrl (fun _ => false) hostN (9000 + 10000))))
      ∧ (restoreChiselSpec (fun _ => false) { } c4node c4spec).map
          (fun d => d.get? "reverse_port")
          = some (some (.n 9000))
      ∧ (restoreChiselSpec (fun _ => false) { } c4node c4spec).map
          (fun d => d.get? "reverse_spec")
          = some none :=
  chisel_derivation_control_and_reverse (fun _ => false) { } c4node c4meta c4spec
    "127.0.0.1" 80 9000 rfl rfl (by decide) rfl rfl rfl rfl

end Smite
